import Mathlib

/-!
# Sendable events of the task handler

A shallow embedding of `agent/eventhandler/task_handler_types.go`: the
`sendableEvent` envelope, its two constructors, `String`, `taskArn`, the
three eligibility predicates and `setSent`.

The envelope refers to live objects of package `api` through pointers
(`*api.Task`, `*api.Container`, `*api.ENIAttachment`).  Those objects are
shared with the rest of the agent and change under the envelope, so they are
kept in an explicit `Memory`, and a pointer is an optional address into it
(`none` is Go's `nil`).  The read/write lock of the envelope is not
modelled: every function below is the sequential meaning of the method body.
-/

namespace eventhandler

/-! ## Package `api`, as far as the envelope reads it -/

/-- Modelled from the spec: `api.TaskStatus`, whose declaration is not part of
the source file; the spec calls it an ordered status value, and Go compares it
with `>=` as an integer. -/
abbrev TaskStatus := Int

/-- Modelled from the spec: `api.ContainerStatus`, whose declaration is not
part of the source file; an ordered status value compared as an integer. -/
abbrev ContainerStatus := Int

/-- Address of a live object of package `api`. A Go pointer is an
`Option Ptr`, with `none` for `nil`. -/
abbrev Ptr := Nat

/-- Modelled from the spec: the live `api.Task`, of which the envelope reads
only the marker of the last status sent. -/
structure Task where
  SentStatus : TaskStatus

/-- Modelled from the spec: `(*api.Task).GetSentStatus`, the spec's
`lastSentStatus()` of the backing task. -/
def Task.GetSentStatus (task : Task) : TaskStatus := task.SentStatus

/-- Modelled from the spec: the live `api.Container`, of which the envelope
reads only the marker of the last status sent. -/
structure Container where
  SentStatus : ContainerStatus

/-- Modelled from the spec: `(*api.Container).GetSentStatus`, the spec's
`lastSentStatus()` of the backing container. -/
def Container.GetSentStatus (container : Container) : ContainerStatus :=
  container.SentStatus

/-- Modelled from the spec: the live `api.ENIAttachment`, which carries its own
sent marker, unrelated to any status. -/
structure ENIAttachment where
  sent : Bool

/-- Modelled from the spec: `(*api.ENIAttachment).IsSent`, the spec's
`isSent()` of the attachment. -/
def ENIAttachment.IsSent (attachment : ENIAttachment) : Bool := attachment.sent

/-- Modelled from the spec: `api.ContainerStateChange`, with the fields the
envelope reads: the owning ARN, the status, and the pointer to the backing
container. -/
structure ContainerStateChange where
  TaskArn : String
  Status : ContainerStatus
  Container : Option Ptr

/-- Modelled from the spec: `api.TaskStateChange`, with the fields the
envelope reads: the optional attachment, the owning ARN, the status, and the
pointer to the backing task. -/
structure TaskStateChange where
  Attachment : Option Ptr
  TaskARN : String
  Status : TaskStatus
  Task : Option Ptr

/-- Go zero value of `api.ContainerStateChange`. -/
def ContainerStateChange.zero : ContainerStateChange :=
  { TaskArn := "", Status := 0, Container := none }

/-- Go zero value of `api.TaskStateChange`. -/
def TaskStateChange.zero : TaskStateChange :=
  { Attachment := none, TaskARN := "", Status := 0, Task := none }

/-- The live objects of package `api` that envelopes point to. -/
structure Memory where
  tasks : Ptr → Task
  containers : Ptr → Container
  attachments : Ptr → ENIAttachment

/-! ## The envelope -/

/-- The struct `sendableEvent`, without its lock. -/
structure sendableEvent where
  isContainerEvent : Bool
  containerSent : Bool
  containerChange : ContainerStateChange
  taskSent : Bool
  taskChange : TaskStateChange

/-- The program state the methods run in: the live objects and the envelope
that is the receiver. -/
structure State where
  mem : Memory
  event : sendableEvent

/-- The function `newSendableContainerEvent`; the fields the composite literal
leaves out take their zero values. -/
def newSendableContainerEvent (event : ContainerStateChange) : sendableEvent :=
  { isContainerEvent := true
    containerSent := false
    containerChange := event
    taskSent := false
    taskChange := TaskStateChange.zero }

/-- The function `newSendableTaskEvent`; the fields the composite literal
leaves out take their zero values. -/
def newSendableTaskEvent (event : TaskStateChange) : sendableEvent :=
  { isContainerEvent := false
    containerSent := false
    containerChange := ContainerStateChange.zero
    taskSent := false
    taskChange := event }

/-- The method `taskArn`. -/
def taskArn (s : State) : String :=
  if s.event.isContainerEvent then
    s.event.containerChange.TaskArn
  else
    s.event.taskChange.TaskARN

/-- The method `taskShouldBeSent`. The constant `api.TaskStatusNone` is not
part of the source file and is a parameter. -/
def taskShouldBeSent (TaskStatusNone : TaskStatus) (s : State) : Bool :=
  if s.event.isContainerEvent then
    false
  else
    let tevent := s.event.taskChange
    if tevent.Status == TaskStatusNone then
      false
    else if s.event.taskSent ||
        (match tevent.Task with
          | none => false
          | some p => decide ((s.mem.tasks p).GetSentStatus ≥ tevent.Status)) then
      false
    else
      true

/-- The method `taskAttachmentShouldBeSent`. The constant `api.TaskStatusNone`
is not part of the source file and is a parameter. -/
def taskAttachmentShouldBeSent (TaskStatusNone : TaskStatus) (s : State) : Bool :=
  if s.event.isContainerEvent then
    false
  else
    let tevent := s.event.taskChange
    tevent.Status == TaskStatusNone &&
      (match tevent.Attachment with
        | none => false
        | some p => !(s.mem.attachments p).IsSent)

/-- The method `containerShouldBeSent`. -/
def containerShouldBeSent (s : State) : Bool :=
  if !s.event.isContainerEvent then
    false
  else
    let cevent := s.event.containerChange
    if s.event.containerSent ||
        (match cevent.Container with
          | none => false
          | some p => decide ((s.mem.containers p).GetSentStatus ≥ cevent.Status)) then
      false
    else
      true

/-- The method `setSent`: it writes one flag of the receiver and nothing
else. -/
def setSent (s : State) : State :=
  if s.event.isContainerEvent then
    { s with event := { s.event with containerSent := true } }
  else
    { s with event := { s.event with taskSent := true } }

/-! ## Runs of the program around one envelope -/

/-- What can happen to the state between two observations of an envelope:
a call of `setSent` on it, or the collaborators rewriting the live objects
(the dispatcher advancing a sent status, an attachment being marked sent). -/
inductive Action where
  | setSent : Action
  | external (mem : Memory) : Action

/-- One action applied to a state. -/
def State.step (s : State) : Action → State
  | Action.setSent => eventhandler.setSent s
  | Action.external mem => { s with mem := mem }

/-- A sequence of actions applied to a state, first action first. -/
def State.run (s : State) (acts : List Action) : State :=
  acts.foldl State.step s

/-! ## The debug rendering -/

/-- The method `String` of the envelope, in state-passing form: the rendering
and the state it leaves. The methods `String` of the two payloads are not part
of the source file and are parameters; they are given the live objects, which
a payload reaches through its pointers. -/
def sendableEvent.String (containerChangeString : Memory → ContainerStateChange → String)
    (taskChangeString : Memory → TaskStateChange → String) (s : State) : String × State :=
  if s.event.isContainerEvent then
    ("ContainerChange: " ++ containerChangeString s.mem s.event.containerChange, s)
  else
    ("TaskChange: " ++ taskChangeString s.mem s.event.taskChange, s)

/-! ## Runs in which the sent status of the backing entities never goes down -/

/-- Whether rewriting the live objects to `mem` leaves `GetSentStatus()` of the
backing entity of the envelope (the backing container of a container envelope,
the backing task of a task envelope) equal or greater. -/
def State.sentStatusKept (s : State) (mem : Memory) : Bool :=
  if s.event.isContainerEvent then
    match s.event.containerChange.Container with
    | none => true
    | some p =>
      decide ((s.mem.containers p).GetSentStatus ≤ (mem.containers p).GetSentStatus)
  else
    match s.event.taskChange.Task with
    | none => true
    | some p => decide ((s.mem.tasks p).GetSentStatus ≤ (mem.tasks p).GetSentStatus)

/-- Whether every rewriting of the live objects in a run from `s` leaves the
sent status of the backing entities equal or greater. -/
def State.runKeepsSentStatus : State → List Action → Bool
  | _, [] => true
  | s, Action.setSent :: acts => State.runKeepsSentStatus (setSent s) acts
  | s, Action.external mem :: acts =>
    s.sentStatusKept mem && State.runKeepsSentStatus { s with mem := mem } acts

/-! ## The predicates with the nil pointer dereference made a fault -/

/-- What a method call on a nil pointer ends in. -/
inductive Fault where
  | nilPointerDereference : Fault
  deriving DecidableEq

/-- The call `tevent.Task.GetSentStatus()` through a pointer that may be nil. -/
def Memory.taskGetSentStatus (mem : Memory) : Option Ptr → Except Fault TaskStatus
  | none => Except.error Fault.nilPointerDereference
  | some p => Except.ok (mem.tasks p).GetSentStatus

/-- The call `cevent.Container.GetSentStatus()` through a pointer that may be
nil. -/
def Memory.containerGetSentStatus (mem : Memory) :
    Option Ptr → Except Fault ContainerStatus
  | none => Except.error Fault.nilPointerDereference
  | some p => Except.ok (mem.containers p).GetSentStatus

/-- The call `tevent.Attachment.IsSent()` through a pointer that may be nil. -/
def Memory.attachmentIsSent (mem : Memory) : Option Ptr → Except Fault Bool
  | none => Except.error Fault.nilPointerDereference
  | some p => Except.ok (mem.attachments p).IsSent

/-- The method `taskShouldBeSent` with its evaluation order spelled out: `||`
and `&&` evaluate their right operand only when the left one does not decide,
and a call through a nil pointer is a fault. -/
def taskShouldBeSentChecked (TaskStatusNone : TaskStatus) (s : State) : Except Fault Bool :=
  if s.event.isContainerEvent then
    pure false
  else
    let tevent := s.event.taskChange
    if tevent.Status == TaskStatusNone then
      pure false
    else do
      let redundant ←
        if s.event.taskSent then pure true
        else if tevent.Task.isSome then do
          let sent ← s.mem.taskGetSentStatus tevent.Task
          pure (decide (sent ≥ tevent.Status))
        else pure false
      if redundant then pure false else pure true

/-- The method `taskAttachmentShouldBeSent` with its evaluation order spelled
out, a call through a nil pointer being a fault. -/
def taskAttachmentShouldBeSentChecked (TaskStatusNone : TaskStatus) (s : State) :
    Except Fault Bool :=
  if s.event.isContainerEvent then
    pure false
  else
    let tevent := s.event.taskChange
    if tevent.Status == TaskStatusNone then
      if tevent.Attachment.isSome then do
        let sent ← s.mem.attachmentIsSent tevent.Attachment
        pure (!sent)
      else pure false
    else pure false

/-- The method `containerShouldBeSent` with its evaluation order spelled out,
a call through a nil pointer being a fault. -/
def containerShouldBeSentChecked (s : State) : Except Fault Bool :=
  if !s.event.isContainerEvent then
    pure false
  else
    let cevent := s.event.containerChange
    do
      let redundant ←
        if s.event.containerSent then pure true
        else if cevent.Container.isSome then do
          let sent ← s.mem.containerGetSentStatus cevent.Container
          pure (decide (sent ≥ cevent.Status))
        else pure false
      if redundant then pure false else pure true

/-! ## How a run treats the fields of the envelope -/

theorem step_isContainerEvent (s : State) (a : Action) :
    (s.step a).event.isContainerEvent = s.event.isContainerEvent := by
  cases a with
  | setSent => simp only [State.step, setSent]; split <;> rfl
  | external mem => rfl

theorem step_containerChange (s : State) (a : Action) :
    (s.step a).event.containerChange = s.event.containerChange := by
  cases a with
  | setSent => simp only [State.step, setSent]; split <;> rfl
  | external mem => rfl

theorem step_taskChange (s : State) (a : Action) :
    (s.step a).event.taskChange = s.event.taskChange := by
  cases a with
  | setSent => simp only [State.step, setSent]; split <;> rfl
  | external mem => rfl

theorem step_containerSent_of_true (s : State) (a : Action)
    (h : s.event.containerSent = true) : (s.step a).event.containerSent = true := by
  cases a with
  | setSent => simp only [State.step, setSent]; split <;> simp [h]
  | external mem => exact h

theorem step_taskSent_of_true (s : State) (a : Action)
    (h : s.event.taskSent = true) : (s.step a).event.taskSent = true := by
  cases a with
  | setSent => simp only [State.step, setSent]; split <;> simp [h]
  | external mem => exact h

theorem step_containerSent_of_task (s : State) (a : Action)
    (h : s.event.isContainerEvent = false) :
    (s.step a).event.containerSent = s.event.containerSent := by
  cases a <;> simp [State.step, setSent, h]

theorem step_taskSent_of_container (s : State) (a : Action)
    (h : s.event.isContainerEvent = true) :
    (s.step a).event.taskSent = s.event.taskSent := by
  cases a <;> simp [State.step, setSent, h]

theorem run_nil (s : State) : s.run [] = s := rfl

theorem run_cons (s : State) (a : Action) (acts : List Action) :
    s.run (a :: acts) = (s.step a).run acts := rfl

theorem run_isContainerEvent (s : State) (acts : List Action) :
    (s.run acts).event.isContainerEvent = s.event.isContainerEvent := by
  induction acts generalizing s with
  | nil => rfl
  | cons a acts ih => rw [run_cons, ih, step_isContainerEvent]

theorem run_containerChange (s : State) (acts : List Action) :
    (s.run acts).event.containerChange = s.event.containerChange := by
  induction acts generalizing s with
  | nil => rfl
  | cons a acts ih => rw [run_cons, ih, step_containerChange]

theorem run_taskChange (s : State) (acts : List Action) :
    (s.run acts).event.taskChange = s.event.taskChange := by
  induction acts generalizing s with
  | nil => rfl
  | cons a acts ih => rw [run_cons, ih, step_taskChange]

theorem run_containerSent_of_true (s : State) (acts : List Action)
    (h : s.event.containerSent = true) : (s.run acts).event.containerSent = true := by
  induction acts generalizing s with
  | nil => exact h
  | cons a acts ih => rw [run_cons]; exact ih _ (step_containerSent_of_true s a h)

theorem run_taskSent_of_true (s : State) (acts : List Action)
    (h : s.event.taskSent = true) : (s.run acts).event.taskSent = true := by
  induction acts generalizing s with
  | nil => exact h
  | cons a acts ih => rw [run_cons]; exact ih _ (step_taskSent_of_true s a h)

theorem run_containerSent_of_task (s : State) (acts : List Action)
    (h : s.event.isContainerEvent = false) :
    (s.run acts).event.containerSent = s.event.containerSent := by
  induction acts generalizing s with
  | nil => rfl
  | cons a acts ih =>
    rw [run_cons, ih _ (by rw [step_isContainerEvent]; exact h),
      step_containerSent_of_task s a h]

theorem run_taskSent_of_container (s : State) (acts : List Action)
    (h : s.event.isContainerEvent = true) :
    (s.run acts).event.taskSent = s.event.taskSent := by
  induction acts generalizing s with
  | nil => rfl
  | cons a acts ih =>
    rw [run_cons, ih _ (by rw [step_isContainerEvent]; exact h),
      step_taskSent_of_container s a h]

/-! ## The predicates, read off the fields -/

theorem containerShouldBeSent_of_sent (s : State) (h : s.event.containerSent = true) :
    containerShouldBeSent s = false := by
  simp [containerShouldBeSent, h]

theorem taskShouldBeSent_of_sent (TaskStatusNone : TaskStatus) (s : State)
    (h : s.event.taskSent = true) : taskShouldBeSent TaskStatusNone s = false := by
  simp [taskShouldBeSent, h]

theorem containerShouldBeSent_of_task (s : State) (h : s.event.isContainerEvent = false) :
    containerShouldBeSent s = false := by
  simp [containerShouldBeSent, h]

theorem taskShouldBeSent_of_container (TaskStatusNone : TaskStatus) (s : State)
    (h : s.event.isContainerEvent = true) : taskShouldBeSent TaskStatusNone s = false := by
  simp [taskShouldBeSent, h]

theorem taskAttachmentShouldBeSent_of_container (TaskStatusNone : TaskStatus) (s : State)
    (h : s.event.isContainerEvent = true) :
    taskAttachmentShouldBeSent TaskStatusNone s = false := by
  simp [taskAttachmentShouldBeSent, h]

theorem setSent_containerSent (s : State) (h : s.event.isContainerEvent = true) :
    (setSent s).event.containerSent = true := by
  simp [setSent, h]

theorem setSent_taskSent (s : State) (h : s.event.isContainerEvent = false) :
    (setSent s).event.taskSent = true := by
  simp [setSent, h]

theorem setSent_isContainerEvent (s : State) :
    (setSent s).event.isContainerEvent = s.event.isContainerEvent :=
  step_isContainerEvent s Action.setSent

theorem containerShouldBeSent_after_setSent (s : State) (later : List Action)
    (h : s.event.isContainerEvent = true) :
    containerShouldBeSent ((setSent s).run later) = false :=
  containerShouldBeSent_of_sent _
    (run_containerSent_of_true _ later (setSent_containerSent s h))

theorem taskShouldBeSent_after_setSent (TaskStatusNone : TaskStatus) (s : State)
    (later : List Action) (h : s.event.isContainerEvent = false) :
    taskShouldBeSent TaskStatusNone ((setSent s).run later) = false :=
  taskShouldBeSent_of_sent TaskStatusNone _
    (run_taskSent_of_true _ later (setSent_taskSent s h))

theorem taskShouldBeSent_eq_true_iff (TaskStatusNone : TaskStatus) (s : State) (p : Ptr)
    (hkind : s.event.isContainerEvent = false) (hptr : s.event.taskChange.Task = some p) :
    taskShouldBeSent TaskStatusNone s = true ↔
      s.event.taskChange.Status ≠ TaskStatusNone ∧ s.event.taskSent = false ∧
        (s.mem.tasks p).GetSentStatus < s.event.taskChange.Status := by
  simp [taskShouldBeSent, hkind, hptr]

theorem containerShouldBeSent_eq_true_iff (s : State) (p : Ptr)
    (hkind : s.event.isContainerEvent = true)
    (hptr : s.event.containerChange.Container = some p) :
    containerShouldBeSent s = true ↔
      s.event.containerSent = false ∧
        (s.mem.containers p).GetSentStatus < s.event.containerChange.Status := by
  simp [containerShouldBeSent, hkind, hptr]

theorem setSent_setSent (s : State) : setSent (setSent s) = setSent s := by
  cases h : s.event.isContainerEvent <;> simp [setSent, h]

theorem iterate_setSent_succ (s : State) (n : Nat) : setSent^[n + 1] s = setSent s := by
  induction n generalizing s with
  | zero => rfl
  | succ n ih => rw [Function.iterate_succ_apply, ih, setSent_setSent]

theorem setSent_mem (s : State) : (setSent s).mem = s.mem := by
  simp only [setSent]; split <;> rfl

theorem run_taskArn (s : State) (acts : List Action) : taskArn (s.run acts) = taskArn s := by
  simp only [taskArn, run_isContainerEvent, run_containerChange, run_taskChange]

theorem taskAttachmentShouldBeSent_congr (TaskStatusNone : TaskStatus) (s s' : State)
    (hkind : s'.event.isContainerEvent = s.event.isContainerEvent)
    (hchange : s'.event.taskChange = s.event.taskChange)
    (hatt : s'.mem.attachments = s.mem.attachments) :
    taskAttachmentShouldBeSent TaskStatusNone s' = taskAttachmentShouldBeSent TaskStatusNone s := by
  simp only [taskAttachmentShouldBeSent, hkind, hchange, hatt]

theorem taskShouldBeSent_step_false (TaskStatusNone : TaskStatus) (s : State) (a : Action)
    (hkept : State.runKeepsSentStatus s [a] = true)
    (h : taskShouldBeSent TaskStatusNone s = false) :
    taskShouldBeSent TaskStatusNone (s.step a) = false := by
  cases a with
  | setSent =>
    cases hkind : s.event.isContainerEvent with
    | true => simp [State.step, setSent, taskShouldBeSent, hkind]
    | false => simp [State.step, setSent, taskShouldBeSent, hkind]
  | external mem =>
    cases hkind : s.event.isContainerEvent with
    | true => simp [State.step, taskShouldBeSent, hkind]
    | false =>
      cases hptr : s.event.taskChange.Task with
      | none =>
        simp only [taskShouldBeSent, hkind, hptr] at h
        simpa [State.step, taskShouldBeSent, hkind, hptr] using h
      | some p =>
        simp only [State.runKeepsSentStatus, State.sentStatusKept, hkind, hptr, Bool.and_true,
          Bool.false_eq_true, if_false, decide_eq_true_eq] at hkept
        simp only [taskShouldBeSent, hkind, hptr, Bool.false_eq_true, if_false] at h
        simp only [State.step, taskShouldBeSent, hkind, hptr, Bool.false_eq_true, if_false]
        by_cases hst : s.event.taskChange.Status = TaskStatusNone
        · simp [hst]
        · have hne : (s.event.taskChange.Status == TaskStatusNone) = false := by
            simpa using hst
          simp only [hne, Bool.false_eq_true, if_false] at h ⊢
          cases hflag : s.event.taskSent with
          | true => simp
          | false =>
            simp only [hflag, Bool.false_or, decide_eq_true_eq, ite_eq_left_iff,
              Bool.true_eq_false, imp_false, not_not] at h
            have hle := hkept
            have : s.event.taskChange.Status ≤ (mem.tasks p).GetSentStatus := le_trans h hle
            simp [this]

theorem containerShouldBeSent_step_false (s : State) (a : Action)
    (hkept : State.runKeepsSentStatus s [a] = true)
    (h : containerShouldBeSent s = false) :
    containerShouldBeSent (s.step a) = false := by
  cases a with
  | setSent =>
    cases hkind : s.event.isContainerEvent with
    | true => simp [State.step, setSent, containerShouldBeSent, hkind]
    | false => simp [State.step, setSent, containerShouldBeSent, hkind]
  | external mem =>
    cases hkind : s.event.isContainerEvent with
    | false => simp [State.step, containerShouldBeSent, hkind]
    | true =>
      cases hptr : s.event.containerChange.Container with
      | none =>
        simp only [containerShouldBeSent, hkind, hptr] at h
        simpa [State.step, containerShouldBeSent, hkind, hptr] using h
      | some p =>
        simp only [State.runKeepsSentStatus, State.sentStatusKept, hkind, hptr, Bool.and_true,
          if_true, decide_eq_true_eq] at hkept
        cases hflag : s.event.containerSent with
        | true => simp [State.step, containerShouldBeSent, hkind, hflag]
        | false =>
          simp only [containerShouldBeSent, hkind, hptr, hflag, Bool.not_true,
            Bool.false_eq_true, if_false, Bool.false_or, decide_eq_true_eq,
            ite_eq_left_iff, Bool.true_eq_false, imp_false, not_not] at h
          have hle := hkept
          have : s.event.containerChange.Status ≤ (mem.containers p).GetSentStatus :=
            le_trans h hle
          simp [State.step, containerShouldBeSent, hkind, hptr, this]

theorem runKeepsSentStatus_cons (s : State) (a : Action) (acts : List Action)
    (h : State.runKeepsSentStatus s (a :: acts) = true) :
    State.runKeepsSentStatus s [a] = true ∧
      State.runKeepsSentStatus (s.step a) acts = true := by
  cases a with
  | setSent =>
    simp only [State.runKeepsSentStatus] at h
    exact ⟨by simp [State.runKeepsSentStatus], by simpa [State.step] using h⟩
  | external mem =>
    simp only [State.runKeepsSentStatus, Bool.and_eq_true] at h
    exact ⟨by simp [State.runKeepsSentStatus, h.1], by simpa [State.step] using h.2⟩

theorem taskShouldBeSent_run_false (TaskStatusNone : TaskStatus) (s : State)
    (acts : List Action) (hkept : State.runKeepsSentStatus s acts = true)
    (h : taskShouldBeSent TaskStatusNone s = false) :
    taskShouldBeSent TaskStatusNone (s.run acts) = false := by
  induction acts generalizing s with
  | nil => exact h
  | cons a acts ih =>
    obtain ⟨h1, h2⟩ := runKeepsSentStatus_cons s a acts hkept
    rw [run_cons]
    exact ih _ h2 (taskShouldBeSent_step_false TaskStatusNone s a h1 h)

theorem containerShouldBeSent_run_false (s : State) (acts : List Action)
    (hkept : State.runKeepsSentStatus s acts = true)
    (h : containerShouldBeSent s = false) :
    containerShouldBeSent (s.run acts) = false := by
  induction acts generalizing s with
  | nil => exact h
  | cons a acts ih =>
    obtain ⟨h1, h2⟩ := runKeepsSentStatus_cons s a acts hkept
    rw [run_cons]
    exact ih _ h2 (containerShouldBeSent_step_false s a h1 h)

theorem taskShouldBeSentChecked_eq (TaskStatusNone : TaskStatus) (s : State) :
    taskShouldBeSentChecked TaskStatusNone s = Except.ok (taskShouldBeSent TaskStatusNone s) := by
  by_cases hst : s.event.taskChange.Status = TaskStatusNone <;>
  cases hkind : s.event.isContainerEvent <;>
  cases hflag : s.event.taskSent <;>
  cases hptr : s.event.taskChange.Task <;>
  simp [taskShouldBeSentChecked, taskShouldBeSent, Memory.taskGetSentStatus, hst, hkind,
    hflag, hptr, pure, bind, Except.pure, Except.bind]
  split <;> simp_all

theorem taskAttachmentShouldBeSentChecked_eq (TaskStatusNone : TaskStatus) (s : State) :
    taskAttachmentShouldBeSentChecked TaskStatusNone s
      = Except.ok (taskAttachmentShouldBeSent TaskStatusNone s) := by
  by_cases hst : s.event.taskChange.Status = TaskStatusNone <;>
  cases hkind : s.event.isContainerEvent <;>
  cases hptr : s.event.taskChange.Attachment <;>
  simp [taskAttachmentShouldBeSentChecked, taskAttachmentShouldBeSent,
    Memory.attachmentIsSent, hst, hkind, hptr, pure, bind, Except.pure, Except.bind]

theorem containerShouldBeSentChecked_eq (s : State) :
    containerShouldBeSentChecked s = Except.ok (containerShouldBeSent s) := by
  cases hkind : s.event.isContainerEvent <;>
  cases hflag : s.event.containerSent <;>
  cases hptr : s.event.containerChange.Container <;>
  simp [containerShouldBeSentChecked, containerShouldBeSent, Memory.containerGetSentStatus,
    hkind, hflag, hptr, pure, bind, Except.pure, Except.bind]
  split <;> simp_all

/-! ## The claims -/

/-- C1: once `setSent` has been called on an envelope, the predicate of the
envelope's own kind is false and stays false in every later state, whatever
further `setSent` calls are made and however the collaborators rewrite the
live objects. Stated for an envelope built by `newSendableContainerEvent`, for
one built by `newSendableTaskEvent` (each in any state it has reached before
the call), and for an envelope with arbitrary field values. -/
theorem setSent_own_predicate_false_forever (TaskStatusNone : TaskStatus) (mem : Memory)
    (c : ContainerStateChange) (t : TaskStateChange) (earlier later : List Action) :
    containerShouldBeSent
        ((setSent ((State.mk mem (newSendableContainerEvent c)).run earlier)).run later)
      = false ∧
    taskShouldBeSent TaskStatusNone
        ((setSent ((State.mk mem (newSendableTaskEvent t)).run earlier)).run later)
      = false ∧
    ∀ s : State,
      (if s.event.isContainerEvent then containerShouldBeSent ((setSent s).run later)
       else taskShouldBeSent TaskStatusNone ((setSent s).run later)) = false := by
  refine ⟨?_, ?_, ?_⟩
  · exact containerShouldBeSent_after_setSent _ later (by rw [run_isContainerEvent]; rfl)
  · exact taskShouldBeSent_after_setSent TaskStatusNone _ later
      (by rw [run_isContainerEvent]; rfl)
  · intro s
    cases h : s.event.isContainerEvent with
    | true => simpa using containerShouldBeSent_after_setSent s later h
    | false => simpa using taskShouldBeSent_after_setSent TaskStatusNone s later h

/-- C2: when the payload of an envelope has a backing entity whose
`GetSentStatus()` is at least the payload's `Status`, the predicate of the
envelope's kind is false, for either value `flag` of the local sent flag. -/
theorem external_dedup_overrides_flag (TaskStatusNone : TaskStatus) (mem : Memory)
    (event : sendableEvent) (flag : Bool) (p : Ptr) :
    (event.isContainerEvent = false → event.taskChange.Task = some p →
        (mem.tasks p).GetSentStatus ≥ event.taskChange.Status →
        taskShouldBeSent TaskStatusNone ⟨mem, { event with taskSent := flag }⟩ = false) ∧
    (event.isContainerEvent = true → event.containerChange.Container = some p →
        (mem.containers p).GetSentStatus ≥ event.containerChange.Status →
        containerShouldBeSent ⟨mem, { event with containerSent := flag }⟩ = false) := by
  constructor
  · intro hkind hptr hge
    simp [taskShouldBeSent, hkind, hptr, hge]
  · intro hkind hptr hge
    simp [containerShouldBeSent, hkind, hptr, hge]

/-- Scenario 3 of the spec as an instance of C2: a task envelope with status 2
whose backing task has sent status 2 is not eligible although its flag is
false; and the same for a container envelope. -/
theorem external_dedup_overrides_flag_witness :
    taskShouldBeSent 0
        ⟨⟨fun _ => ⟨2⟩, fun _ => ⟨2⟩, fun _ => ⟨false⟩⟩,
          { newSendableTaskEvent ⟨none, "arn:task", 2, some 7⟩ with taskSent := false }⟩
      = false ∧
    containerShouldBeSent
        ⟨⟨fun _ => ⟨2⟩, fun _ => ⟨2⟩, fun _ => ⟨false⟩⟩,
          { newSendableContainerEvent ⟨"arn:task", 2, some 7⟩ with containerSent := false }⟩
      = false :=
  ⟨(external_dedup_overrides_flag 0 ⟨fun _ => ⟨2⟩, fun _ => ⟨2⟩, fun _ => ⟨false⟩⟩
      (newSendableTaskEvent ⟨none, "arn:task", 2, some 7⟩) false 7).1 rfl rfl (by decide),
   (external_dedup_overrides_flag 0 ⟨fun _ => ⟨2⟩, fun _ => ⟨2⟩, fun _ => ⟨false⟩⟩
      (newSendableContainerEvent ⟨"arn:task", 2, some 7⟩) false 7).2 rfl rfl (by decide)⟩

/-- C3: `taskAttachmentShouldBeSent` is true exactly when the envelope is a
task envelope, the payload's `Status` is `TaskStatusNone`, the payload's
`Attachment` is present, and that attachment's `IsSent()` is false; so it is
false as soon as one of the four fails. -/
theorem taskAttachmentShouldBeSent_iff (TaskStatusNone : TaskStatus) (s : State) :
    taskAttachmentShouldBeSent TaskStatusNone s = true ↔
      (s.event.isContainerEvent = false ∧
        s.event.taskChange.Status = TaskStatusNone ∧
        ∃ p, s.event.taskChange.Attachment = some p ∧
          (s.mem.attachments p).IsSent = false) := by
  cases hkind : s.event.isContainerEvent with
  | true => simp [taskAttachmentShouldBeSent, hkind]
  | false =>
    cases hatt : s.event.taskChange.Attachment with
    | none => simp [taskAttachmentShouldBeSent, hkind, hatt]
    | some p => simp [taskAttachmentShouldBeSent, hkind, hatt]

/-- C4: for a task envelope whose payload has a backing task,
`taskShouldBeSent` is true exactly when the payload's `Status` is not
`TaskStatusNone`, the flag `taskSent` is false, and the backing task's
`GetSentStatus()` is strictly below `Status`; and a task envelope whose
`Status` is `TaskStatusNone` is never eligible through `taskShouldBeSent`,
whatever its flag, backing task and attachment are. -/
theorem taskShouldBeSent_characterised (TaskStatusNone : TaskStatus) (s unset : State)
    (p : Ptr) :
    (s.event.isContainerEvent = false → s.event.taskChange.Task = some p →
      (taskShouldBeSent TaskStatusNone s = true ↔
        s.event.taskChange.Status ≠ TaskStatusNone ∧ s.event.taskSent = false ∧
          (s.mem.tasks p).GetSentStatus < s.event.taskChange.Status)) ∧
    (unset.event.isContainerEvent = false →
      unset.event.taskChange.Status = TaskStatusNone →
      taskShouldBeSent TaskStatusNone unset = false) := by
  constructor
  · intro hkind hptr
    exact taskShouldBeSent_eq_true_iff TaskStatusNone s p hkind hptr
  · intro hkind hstatus
    simp [taskShouldBeSent, hkind, hstatus]

/-- An instance of C4: a fresh task envelope with status 2 whose backing task
has sent status 1 is eligible, and (scenario 2 of the spec) a fresh task
envelope with unset status and an unsent attachment is not. -/
theorem taskShouldBeSent_characterised_witness :
    taskShouldBeSent 0
        ⟨⟨fun _ => ⟨1⟩, fun _ => ⟨1⟩, fun _ => ⟨false⟩⟩,
          newSendableTaskEvent ⟨none, "arn:task", 2, some 7⟩⟩ = true ∧
    taskShouldBeSent 0
        ⟨⟨fun _ => ⟨1⟩, fun _ => ⟨1⟩, fun _ => ⟨false⟩⟩,
          newSendableTaskEvent ⟨some 3, "arn:task", 0, some 7⟩⟩ = false :=
  ⟨((taskShouldBeSent_characterised 0
        ⟨⟨fun _ => ⟨1⟩, fun _ => ⟨1⟩, fun _ => ⟨false⟩⟩,
          newSendableTaskEvent ⟨none, "arn:task", 2, some 7⟩⟩
        ⟨⟨fun _ => ⟨1⟩, fun _ => ⟨1⟩, fun _ => ⟨false⟩⟩,
          newSendableTaskEvent ⟨some 3, "arn:task", 0, some 7⟩⟩ 7).1 rfl rfl).2
      ⟨by decide, rfl, by decide⟩,
   (taskShouldBeSent_characterised 0
        ⟨⟨fun _ => ⟨1⟩, fun _ => ⟨1⟩, fun _ => ⟨false⟩⟩,
          newSendableTaskEvent ⟨none, "arn:task", 2, some 7⟩⟩
        ⟨⟨fun _ => ⟨1⟩, fun _ => ⟨1⟩, fun _ => ⟨false⟩⟩,
          newSendableTaskEvent ⟨some 3, "arn:task", 0, some 7⟩⟩ 7).2 rfl rfl⟩

/-- C5: for a container envelope whose payload has a backing container,
`containerShouldBeSent` is true exactly when the flag `containerSent` is false
and the backing container's `GetSentStatus()` is strictly below the payload's
`Status`, with no condition on an unset status; so a fresh container envelope
whose `Status` is above the container's sent status is eligible, and it is no
longer eligible after `setSent`. -/
theorem containerShouldBeSent_characterised (mem : Memory) (event : sendableEvent)
    (c : ContainerStateChange) (p : Ptr) :
    (event.isContainerEvent = true → event.containerChange.Container = some p →
      (containerShouldBeSent ⟨mem, event⟩ = true ↔
        event.containerSent = false ∧
          (mem.containers p).GetSentStatus < event.containerChange.Status)) ∧
    (c.Container = some p → (mem.containers p).GetSentStatus < c.Status →
      containerShouldBeSent ⟨mem, newSendableContainerEvent c⟩ = true ∧
      containerShouldBeSent (setSent ⟨mem, newSendableContainerEvent c⟩) = false) := by
  refine ⟨?_, ?_⟩
  · intro hkind hptr
    exact containerShouldBeSent_eq_true_iff ⟨mem, event⟩ p hkind hptr
  · intro hptr hlt
    refine ⟨?_, ?_⟩
    · exact (containerShouldBeSent_eq_true_iff ⟨mem, newSendableContainerEvent c⟩ p
        rfl hptr).2 ⟨rfl, hlt⟩
    · exact containerShouldBeSent_after_setSent ⟨mem, newSendableContainerEvent c⟩ [] rfl

/-- Scenario 1 of the spec as an instance of C5: a container envelope with
status 3 whose backing container has sent status 1 is eligible when fresh and
not eligible after `setSent`. -/
theorem containerShouldBeSent_characterised_witness :
    containerShouldBeSent
        ⟨⟨fun _ => ⟨1⟩, fun _ => ⟨1⟩, fun _ => ⟨false⟩⟩,
          newSendableContainerEvent ⟨"arn:task", 3, some 5⟩⟩ = true ∧
    containerShouldBeSent
        (setSent ⟨⟨fun _ => ⟨1⟩, fun _ => ⟨1⟩, fun _ => ⟨false⟩⟩,
          newSendableContainerEvent ⟨"arn:task", 3, some 5⟩⟩) = false ∧
    (containerShouldBeSent
        ⟨⟨fun _ => ⟨1⟩, fun _ => ⟨1⟩, fun _ => ⟨false⟩⟩,
          newSendableContainerEvent ⟨"arn:task", 3, some 5⟩⟩ = true ↔
      (newSendableContainerEvent ⟨"arn:task", 3, some 5⟩).containerSent = false ∧
        Container.GetSentStatus ⟨1⟩ < 3) :=
  ⟨((containerShouldBeSent_characterised ⟨fun _ => ⟨1⟩, fun _ => ⟨1⟩, fun _ => ⟨false⟩⟩
        (newSendableContainerEvent ⟨"arn:task", 3, some 5⟩) ⟨"arn:task", 3, some 5⟩ 5).2
      rfl (by decide)).1,
   ((containerShouldBeSent_characterised ⟨fun _ => ⟨1⟩, fun _ => ⟨1⟩, fun _ => ⟨false⟩⟩
        (newSendableContainerEvent ⟨"arn:task", 3, some 5⟩) ⟨"arn:task", 3, some 5⟩ 5).2
      rfl (by decide)).2,
   (containerShouldBeSent_characterised ⟨fun _ => ⟨1⟩, fun _ => ⟨1⟩, fun _ => ⟨false⟩⟩
        (newSendableContainerEvent ⟨"arn:task", 3, some 5⟩) ⟨"arn:task", 3, some 5⟩ 5).1
      rfl rfl⟩

/-- C6: a predicate of the other kind is always false. For an envelope built
by `newSendableContainerEvent`, in every state reached by any sequence of
actions and for every payload, `taskShouldBeSent` and
`taskAttachmentShouldBeSent` are false; for one built by
`newSendableTaskEvent`, likewise, `containerShouldBeSent` is false. -/
theorem other_kind_predicates_false (TaskStatusNone : TaskStatus) (mem : Memory)
    (c : ContainerStateChange) (t : TaskStateChange) (acts : List Action) :
    taskShouldBeSent TaskStatusNone
        ((State.mk mem (newSendableContainerEvent c)).run acts) = false ∧
    taskAttachmentShouldBeSent TaskStatusNone
        ((State.mk mem (newSendableContainerEvent c)).run acts) = false ∧
    containerShouldBeSent ((State.mk mem (newSendableTaskEvent t)).run acts) = false := by
  refine ⟨?_, ?_, ?_⟩
  · exact taskShouldBeSent_of_container TaskStatusNone _ (by rw [run_isContainerEvent]; rfl)
  · exact taskAttachmentShouldBeSent_of_container TaskStatusNone _
      (by rw [run_isContainerEvent]; rfl)
  · exact containerShouldBeSent_of_task _ (by rw [run_isContainerEvent]; rfl)

/-- C7: `setSent` is idempotent: calling it twice leaves the same state as
calling it once, and after any positive number `n + 1` of calls the sent flag
of the active kind is true. -/
theorem setSent_idempotent (s : State) (n : Nat) :
    setSent (setSent s) = setSent s ∧
    setSent^[n + 1] s = setSent s ∧
    (if s.event.isContainerEvent then (setSent^[n + 1] s).event.containerSent
     else (setSent^[n + 1] s).event.taskSent) = true := by
  refine ⟨setSent_setSent s, iterate_setSent_succ s n, ?_⟩
  rw [iterate_setSent_succ]
  cases h : s.event.isContainerEvent with
  | true => simpa using setSent_containerSent s h
  | false => simpa using setSent_taskSent s h

/-- C8: `setSent` changes nothing but the sent flag of the active kind: the
kind tag, both payload slots and the sent flag of the other kind are as
before, the live objects are as before, and so every backing entity's
`GetSentStatus()` and every attachment's `IsSent()` read the same after the
call as before it. -/
theorem setSent_frame (s : State) (p : Ptr) :
    (setSent s).event.isContainerEvent = s.event.isContainerEvent ∧
    (setSent s).event.containerChange = s.event.containerChange ∧
    (setSent s).event.taskChange = s.event.taskChange ∧
    (if s.event.isContainerEvent then (setSent s).event.taskSent = s.event.taskSent
     else (setSent s).event.containerSent = s.event.containerSent) ∧
    (setSent s).mem = s.mem ∧
    ((setSent s).mem.tasks p).GetSentStatus = (s.mem.tasks p).GetSentStatus ∧
    ((setSent s).mem.containers p).GetSentStatus = (s.mem.containers p).GetSentStatus ∧
    ((setSent s).mem.attachments p).IsSent = (s.mem.attachments p).IsSent := by
  refine ⟨step_isContainerEvent s Action.setSent, step_containerChange s Action.setSent,
    step_taskChange s Action.setSent, ?_, setSent_mem s, ?_, ?_, ?_⟩
  · cases h : s.event.isContainerEvent with
    | true => simpa using step_taskSent_of_container s Action.setSent h
    | false => simpa using step_containerSent_of_task s Action.setSent h
  · rw [setSent_mem]
  · rw [setSent_mem]
  · rw [setSent_mem]

/-- C9: `taskArn` returns the ARN carried by the active payload: the ARN field
of `c` for an envelope built by `newSendableContainerEvent c` and the ARN
field of `t` for one built by `newSendableTaskEvent t`, in every state the
envelope reaches; whatever is put in the inactive payload slot does not change
the result, and the result is the same before and after `setSent`. -/
theorem taskArn_active_payload (mem : Memory) (c other_c : ContainerStateChange)
    (t other_t : TaskStateChange) (acts : List Action) (s : State) :
    taskArn ((State.mk mem (newSendableContainerEvent c)).run acts) = c.TaskArn ∧
    taskArn ((State.mk mem (newSendableTaskEvent t)).run acts) = t.TaskARN ∧
    taskArn ⟨mem, { newSendableContainerEvent c with taskChange := other_t }⟩ = c.TaskArn ∧
    taskArn ⟨mem, { newSendableTaskEvent t with containerChange := other_c }⟩ = t.TaskARN ∧
    taskArn (setSent s) = taskArn s := by
  refine ⟨?_, ?_, rfl, rfl, ?_⟩
  · rw [run_taskArn]; rfl
  · rw [run_taskArn]; rfl
  · exact run_taskArn s [Action.setSent]

/-- C10: structural invariant of the envelope. `newSendableContainerEvent c`
has kind Container, `containerSent` false and payload `c`;
`newSendableTaskEvent t` has kind Task, `taskSent` false and payload `t`; and
in every state reached from either by a sequence of actions the kind tag is
the one set at construction, the active payload is the argument of the
constructor, and the payload slot and sent flag of the other kind are still
the zero payload and false. -/
theorem envelope_structural_invariant (mem : Memory) (c : ContainerStateChange)
    (t : TaskStateChange) (acts : List Action) :
    ((newSendableContainerEvent c).isContainerEvent = true ∧
      (newSendableContainerEvent c).containerSent = false ∧
      (newSendableContainerEvent c).containerChange = c) ∧
    ((newSendableTaskEvent t).isContainerEvent = false ∧
      (newSendableTaskEvent t).taskSent = false ∧
      (newSendableTaskEvent t).taskChange = t) ∧
    (((State.mk mem (newSendableContainerEvent c)).run acts).event.isContainerEvent = true ∧
      ((State.mk mem (newSendableContainerEvent c)).run acts).event.containerChange = c ∧
      ((State.mk mem (newSendableContainerEvent c)).run acts).event.taskChange
        = TaskStateChange.zero ∧
      ((State.mk mem (newSendableContainerEvent c)).run acts).event.taskSent = false) ∧
    (((State.mk mem (newSendableTaskEvent t)).run acts).event.isContainerEvent = false ∧
      ((State.mk mem (newSendableTaskEvent t)).run acts).event.taskChange = t ∧
      ((State.mk mem (newSendableTaskEvent t)).run acts).event.containerChange
        = ContainerStateChange.zero ∧
      ((State.mk mem (newSendableTaskEvent t)).run acts).event.containerSent = false) := by
  refine ⟨⟨rfl, rfl, rfl⟩, ⟨rfl, rfl, rfl⟩, ⟨?_, ?_, ?_, ?_⟩, ⟨?_, ?_, ?_, ?_⟩⟩
  · rw [run_isContainerEvent]; rfl
  · rw [run_containerChange]; rfl
  · rw [run_taskChange]; rfl
  · rw [run_taskSent_of_container _ acts rfl]; rfl
  · rw [run_isContainerEvent]; rfl
  · rw [run_taskChange]; rfl
  · rw [run_containerChange]; rfl
  · rw [run_containerSent_of_task _ acts rfl]; rfl

/-- C12: the attachment channel ignores the local sent flag and the sent
status of the task: `taskAttachmentShouldBeSent` returns the same value before
and after `setSent`, for either value of the flag `taskSent`, and whatever the
live tasks (and so the backing task's `GetSentStatus()`) are; in particular a
task envelope with `Status` unset and a present, unsent attachment still
reports true after `setSent`. -/
theorem taskAttachmentShouldBeSent_ignores_flag_and_sent_status
    (TaskStatusNone : TaskStatus) (s : State) (tasks : Ptr → Task) (flag : Bool) (p : Ptr) :
    taskAttachmentShouldBeSent TaskStatusNone (setSent s)
      = taskAttachmentShouldBeSent TaskStatusNone s ∧
    taskAttachmentShouldBeSent TaskStatusNone ⟨s.mem, { s.event with taskSent := flag }⟩
      = taskAttachmentShouldBeSent TaskStatusNone s ∧
    taskAttachmentShouldBeSent TaskStatusNone ⟨{ s.mem with tasks := tasks }, s.event⟩
      = taskAttachmentShouldBeSent TaskStatusNone s ∧
    taskAttachmentShouldBeSent TaskStatusNone
        (setSent ⟨{ s.mem with tasks := tasks }, s.event⟩)
      = taskAttachmentShouldBeSent TaskStatusNone s ∧
    (s.event.isContainerEvent = false → s.event.taskChange.Status = TaskStatusNone →
      s.event.taskChange.Attachment = some p → (s.mem.attachments p).IsSent = false →
      taskAttachmentShouldBeSent TaskStatusNone (setSent s) = true) := by
  have hset : ∀ s' : State, taskAttachmentShouldBeSent TaskStatusNone (setSent s')
      = taskAttachmentShouldBeSent TaskStatusNone s' := fun s' =>
    taskAttachmentShouldBeSent_congr TaskStatusNone s' (setSent s')
      (step_isContainerEvent s' Action.setSent) (step_taskChange s' Action.setSent)
      (by rw [setSent_mem])
  refine ⟨hset s, ?_, ?_, ?_, ?_⟩
  · exact taskAttachmentShouldBeSent_congr TaskStatusNone s _ rfl rfl rfl
  · exact taskAttachmentShouldBeSent_congr TaskStatusNone s _ rfl rfl rfl
  · rw [hset]
    exact taskAttachmentShouldBeSent_congr TaskStatusNone s _ rfl rfl rfl
  · intro hkind hst hatt hsent
    rw [hset]
    simp [taskAttachmentShouldBeSent, hkind, hst, hatt, hsent]

/-- An instance of C12: a task envelope with unset status and an unsent
attachment is attachment-eligible after `setSent`. -/
theorem taskAttachmentShouldBeSent_ignores_flag_and_sent_status_witness :
    taskAttachmentShouldBeSent 0
        (setSent ⟨⟨fun _ => ⟨1⟩, fun _ => ⟨1⟩, fun _ => ⟨false⟩⟩,
          newSendableTaskEvent ⟨some 3, "arn:task", 0, some 7⟩⟩) = true :=
  (taskAttachmentShouldBeSent_ignores_flag_and_sent_status 0
      ⟨⟨fun _ => ⟨1⟩, fun _ => ⟨1⟩, fun _ => ⟨false⟩⟩,
        newSendableTaskEvent ⟨some 3, "arn:task", 0, some 7⟩⟩
      (fun _ => ⟨5⟩) true 3).2.2.2.2 rfl rfl rfl rfl

/-- C13: `String` renders a label followed by the rendering of the active
payload: "ContainerChange: " and `containerChange.String()` for a container
envelope, "TaskChange: " and `taskChange.String()` for a task envelope,
whatever the sent flags and the inactive payload slot hold; and `String`
leaves the state as it found it. -/
theorem String_renders_active_payload
    (containerChangeString : Memory → ContainerStateChange → String)
    (taskChangeString : Memory → TaskStateChange → String) (mem : Memory)
    (containerSent taskSent : Bool) (c : ContainerStateChange) (t : TaskStateChange)
    (s : State) :
    (sendableEvent.String containerChangeString taskChangeString
        ⟨mem, ⟨true, containerSent, c, taskSent, t⟩⟩).1
      = "ContainerChange: " ++ containerChangeString mem c ∧
    (sendableEvent.String containerChangeString taskChangeString
        ⟨mem, ⟨false, containerSent, c, taskSent, t⟩⟩).1
      = "TaskChange: " ++ taskChangeString mem t ∧
    (sendableEvent.String containerChangeString taskChangeString s).2 = s := by
  refine ⟨rfl, rfl, ?_⟩
  simp only [sendableEvent.String]
  split <;> rfl

/-- C14: the three eligibility channels are mutually exclusive: in every state
of every envelope at most one of `taskShouldBeSent`,
`taskAttachmentShouldBeSent` and `containerShouldBeSent` is true. -/
theorem eligibility_channels_exclusive (TaskStatusNone : TaskStatus) (s : State) :
    (taskShouldBeSent TaskStatusNone s).toNat
        + (taskAttachmentShouldBeSent TaskStatusNone s).toNat
        + (containerShouldBeSent s).toNat ≤ 1 ∧
    (taskShouldBeSent TaskStatusNone s && taskAttachmentShouldBeSent TaskStatusNone s)
      = false ∧
    (taskShouldBeSent TaskStatusNone s && containerShouldBeSent s) = false ∧
    (taskAttachmentShouldBeSent TaskStatusNone s && containerShouldBeSent s) = false := by
  cases hkind : s.event.isContainerEvent with
  | true =>
    rw [taskShouldBeSent_of_container TaskStatusNone s hkind,
      taskAttachmentShouldBeSent_of_container TaskStatusNone s hkind]
    refine ⟨?_, rfl, rfl, rfl⟩
    cases containerShouldBeSent s <;> decide
  | false =>
    rw [containerShouldBeSent_of_task s hkind]
    by_cases hst : s.event.taskChange.Status = TaskStatusNone
    · have h : taskShouldBeSent TaskStatusNone s = false := by
        simp [taskShouldBeSent, hkind, hst]
      rw [h]
      refine ⟨?_, rfl, by simp, by simp⟩
      cases taskAttachmentShouldBeSent TaskStatusNone s <;> decide
    · have h : taskAttachmentShouldBeSent TaskStatusNone s = false := by
        simp [taskAttachmentShouldBeSent, hkind, hst]
      rw [h]
      refine ⟨?_, by simp, by simp, rfl⟩
      cases taskShouldBeSent TaskStatusNone s <;> decide

/-- C15: ineligibility is permanent: when `taskShouldBeSent` (respectively
`containerShouldBeSent`) is false in a state, it is false in every state
reached from it by a run of `setSent` calls and of rewritings of the live
objects that leave `GetSentStatus()` of the backing entity equal or
greater. -/
theorem ineligibility_permanent (TaskStatusNone : TaskStatus) (s : State)
    (acts : List Action) (hkept : State.runKeepsSentStatus s acts = true) :
    (taskShouldBeSent TaskStatusNone s = false →
      taskShouldBeSent TaskStatusNone (s.run acts) = false) ∧
    (containerShouldBeSent s = false → containerShouldBeSent (s.run acts) = false) :=
  ⟨taskShouldBeSent_run_false TaskStatusNone s acts hkept,
   containerShouldBeSent_run_false s acts hkept⟩

/-- An instance of C15: a task envelope with status 2 whose backing task has
sent status 2, and a container envelope likewise, stay ineligible after the
sent status is raised to 3 and `setSent` is called. -/
theorem ineligibility_permanent_witness :
    taskShouldBeSent 0
        ((State.mk ⟨fun _ => ⟨2⟩, fun _ => ⟨2⟩, fun _ => ⟨false⟩⟩
            (newSendableTaskEvent ⟨none, "arn:task", 2, some 7⟩)).run
          [Action.external ⟨fun _ => ⟨3⟩, fun _ => ⟨3⟩, fun _ => ⟨false⟩⟩, Action.setSent])
      = false ∧
    containerShouldBeSent
        ((State.mk ⟨fun _ => ⟨2⟩, fun _ => ⟨2⟩, fun _ => ⟨false⟩⟩
            (newSendableContainerEvent ⟨"arn:task", 2, some 5⟩)).run
          [Action.external ⟨fun _ => ⟨3⟩, fun _ => ⟨3⟩, fun _ => ⟨false⟩⟩, Action.setSent])
      = false :=
  ⟨(ineligibility_permanent 0
      (State.mk ⟨fun _ => ⟨2⟩, fun _ => ⟨2⟩, fun _ => ⟨false⟩⟩
        (newSendableTaskEvent ⟨none, "arn:task", 2, some 7⟩))
      [Action.external ⟨fun _ => ⟨3⟩, fun _ => ⟨3⟩, fun _ => ⟨false⟩⟩, Action.setSent]
      (by decide)).1 (by decide),
   (ineligibility_permanent 0
      (State.mk ⟨fun _ => ⟨2⟩, fun _ => ⟨2⟩, fun _ => ⟨false⟩⟩
        (newSendableContainerEvent ⟨"arn:task", 2, some 5⟩))
      [Action.external ⟨fun _ => ⟨3⟩, fun _ => ⟨3⟩, fun _ => ⟨false⟩⟩, Action.setSent]
      (by decide)).2 (by decide)⟩

/-- C16: the predicates are total and never call through a nil pointer: with
the dereference of a nil pointer made a fault, each predicate still returns a
boolean, the one the plain reading of the method gives; and when the backing
entity or the attachment is missing the result is decided by the local data:
`containerShouldBeSent` is the negation of `containerSent` whatever `Status`
is, `taskShouldBeSent` is true exactly when `Status` is not `TaskStatusNone`
and `taskSent` is false, and `taskAttachmentShouldBeSent` is false. -/
theorem predicates_total_without_collaborator (TaskStatusNone : TaskStatus) (s : State) :
    (taskShouldBeSentChecked TaskStatusNone s
        = Except.ok (taskShouldBeSent TaskStatusNone s) ∧
      taskAttachmentShouldBeSentChecked TaskStatusNone s
        = Except.ok (taskAttachmentShouldBeSent TaskStatusNone s) ∧
      containerShouldBeSentChecked s = Except.ok (containerShouldBeSent s)) ∧
    (s.event.isContainerEvent = true → s.event.containerChange.Container = none →
      containerShouldBeSent s = !s.event.containerSent) ∧
    (s.event.isContainerEvent = false → s.event.taskChange.Task = none →
      taskShouldBeSent TaskStatusNone s
        = (decide (s.event.taskChange.Status ≠ TaskStatusNone) && !s.event.taskSent)) ∧
    (s.event.taskChange.Attachment = none →
      taskAttachmentShouldBeSent TaskStatusNone s = false) := by
  refine ⟨⟨taskShouldBeSentChecked_eq TaskStatusNone s,
    taskAttachmentShouldBeSentChecked_eq TaskStatusNone s,
    containerShouldBeSentChecked_eq s⟩, ?_, ?_, ?_⟩
  · intro hkind hptr
    cases hflag : s.event.containerSent <;>
      simp [containerShouldBeSent, hkind, hptr, hflag]
  · intro hkind hptr
    by_cases hst : s.event.taskChange.Status = TaskStatusNone <;>
      cases hflag : s.event.taskSent <;>
      simp [taskShouldBeSent, hkind, hptr, hflag, hst]
  · intro hptr
    cases hkind : s.event.isContainerEvent <;>
      simp [taskAttachmentShouldBeSent, hkind, hptr]

/-- An instance of C16: without a backing entity a fresh container envelope
with status 0 is eligible, a fresh task envelope with a set status is
eligible, and a task envelope with unset status and no attachment is not
attachment-eligible. -/
theorem predicates_total_without_collaborator_witness :
    containerShouldBeSent
        ⟨⟨fun _ => ⟨9⟩, fun _ => ⟨9⟩, fun _ => ⟨false⟩⟩,
          newSendableContainerEvent ⟨"arn:task", 0, none⟩⟩ = true ∧
    taskShouldBeSent 0
        ⟨⟨fun _ => ⟨9⟩, fun _ => ⟨9⟩, fun _ => ⟨false⟩⟩,
          newSendableTaskEvent ⟨none, "arn:task", 2, none⟩⟩ = true ∧
    taskAttachmentShouldBeSent 0
        ⟨⟨fun _ => ⟨9⟩, fun _ => ⟨9⟩, fun _ => ⟨false⟩⟩,
          newSendableTaskEvent ⟨none, "arn:task", 0, none⟩⟩ = false :=
  ⟨(predicates_total_without_collaborator 0
      ⟨⟨fun _ => ⟨9⟩, fun _ => ⟨9⟩, fun _ => ⟨false⟩⟩,
        newSendableContainerEvent ⟨"arn:task", 0, none⟩⟩).2.1 rfl rfl,
   (predicates_total_without_collaborator 0
      ⟨⟨fun _ => ⟨9⟩, fun _ => ⟨9⟩, fun _ => ⟨false⟩⟩,
        newSendableTaskEvent ⟨none, "arn:task", 2, none⟩⟩).2.2.1 rfl rfl,
   (predicates_total_without_collaborator 0
      ⟨⟨fun _ => ⟨9⟩, fun _ => ⟨9⟩, fun _ => ⟨false⟩⟩,
        newSendableTaskEvent ⟨none, "arn:task", 0, none⟩⟩).2.2.2 rfl⟩

end eventhandler
